import Mathlib

/-!
Verification development for the STR nuisance-prediction repository.

The Python source is shallowly embedded: dataframes become lists of rows
over a cell type, the sklearn classifier is an abstract black box of
predict/predict_proba behaviour (as the spec treats it), network transport
and CSV parsing are abstract fallible functions, and numpy's seeded random
stream is an abstract function from draw index to natural number.
-/

/-- Cell value of a dataframe: integers, strings or rational probabilities. -/
inductive Val where
  | int : Int → Val
  | str : String → Val
  | rat : ℚ → Val
deriving DecidableEq, Repr

/-- A pandas dataframe: ordered named columns and ordered rows of cells. -/
structure DataFrame where
  cols : List String
  rows : List (List Val)
deriving DecidableEq, Repr

/-- pd.DataFrame(): the empty dataframe. -/
def DataFrame.emptyDF : DataFrame := ⟨[], []⟩

/-- pandas df.empty: true when either axis has length zero. -/
def DataFrame.isEmpty (df : DataFrame) : Bool :=
  df.rows.isEmpty || df.cols.isEmpty

/-- Cell of a row at a named column (out-of-range reads give a default). -/
def DataFrame.cell (df : DataFrame) (r : List Val) (c : String) : Val :=
  r.getD (df.cols.indexOf c) (Val.int 0)

/-- df[c]: a single column as a list of cells. -/
def DataFrame.column (df : DataFrame) (c : String) : List Val :=
  df.rows.map (fun r => df.cell r c)

/-- df[cs]: column selection, in the order of the requested list. -/
def DataFrame.select (df : DataFrame) (cs : List String) : DataFrame :=
  ⟨cs, df.rows.map (fun r => cs.map (fun c => df.cell r c))⟩

/-- df.copy() then df[name] = vals: append one named column. -/
def DataFrame.addColumn (df : DataFrame) (name : String) (vals : List Val) :
    DataFrame :=
  ⟨df.cols ++ [name], List.zipWith (fun r v => r ++ [v]) df.rows vals⟩

/-- The black-box fitted classifier: per-row labels and positive-class
probabilities, as the spec's abstract fit/predict/predict_proba capability. -/
structure Classifier where
  predictFn : DataFrame → List Val
  probaFn : DataFrame → List ℚ

/-- Abstract sklearn backend: RandomForestClassifier construction (with its
hyperparameters) and in-place fit, plus train_test_split. -/
structure MLBackend where
  newRF : Nat → Nat → Nat → Classifier
  fit : Classifier → DataFrame → List Val → Classifier
  split : DataFrame → List Val → DataFrame × DataFrame × List Val × List Val

/-- NuisancePredictor state: model_type, classifier handle, recorded feature
columns, trained flag. -/
structure Predictor where
  model_type : String
  model : Option Classifier
  feature_columns : Option (List String)
  is_trained : Bool

/-- NuisancePredictor.__init__. -/
def Predictor.init (model_type : String := "random_forest") : Predictor :=
  ⟨model_type, none, none, false⟩

/-- The fixed required feature columns of prepare_features. -/
def feature_cols : List String :=
  ["complaint_count_last_year", "property_age", "neighborhood_risk_score"]

/-- NuisancePredictor.prepare_features: X is the selection of the three fixed
feature columns when all are present, else the empty dataframe; y is the
is_nuisance column when present, else absent. -/
def prepare_features (df : DataFrame) : DataFrame × Option (List Val) :=
  let X := if feature_cols.all (fun c => df.cols.contains c)
           then df.select feature_cols else DataFrame.emptyDF
  let y := if df.cols.contains "is_nuisance"
           then some (df.column "is_nuisance") else none
  (X, y)

/-- NuisancePredictor.train: raising is modelled as returning the unchanged
predictor together with an error; success returns the updated predictor and
the fitted classifier handle. -/
def Predictor.train (b : MLBackend) (p : Predictor) (df : DataFrame) :
    Predictor × Except String Classifier :=
  let Xy := prepare_features df
  if Xy.1.isEmpty || Xy.2.isNone then
    (p, Except.error "No valid features or target found for training")
  else
    match Xy.2 with
    | none => (p, Except.error "No valid features or target found for training")
    | some y =>
      let parts := b.split Xy.1 y
      let model1 : Option Classifier :=
        if p.model_type = "random_forest" then some (b.newRF 100 10 42)
        else p.model
      match model1 with
      | none =>
        (p, Except.error "AttributeError: NoneType object has no attribute fit")
      | some m0 =>
        let m := b.fit m0 parts.1 parts.2.2.1
        let p1 : Predictor :=
          { p with model := some m, feature_columns := some Xy.1.cols,
                   is_trained := true }
        (p1, Except.ok m)

/-- NuisancePredictor.categorize_risk: bucket each probability with the fixed
thresholds 0.30 and 0.70. -/
def categorize_risk (probabilities : List ℚ) : List String :=
  probabilities.map (fun prob =>
    if prob < 3/10 then "Low"
    else if prob < 7/10 then "Medium"
    else "High")

/-- NuisancePredictor.predict: readiness checks, then augment the input rows
with prediction, probability and risk level columns. -/
def Predictor.predict (p : Predictor) (df : DataFrame) :
    Except String DataFrame :=
  if p.is_trained = false then
    Except.error "Model must be trained before making predictions"
  else
    let X := (prepare_features df).1
    if X.isEmpty then Except.error "No valid features found for prediction"
    else
      match p.model with
      | none =>
        Except.error "AttributeError: NoneType object has no attribute predict"
      | some m =>
        let predictions := m.predictFn X
        let probabilities := m.probaFn X
        Except.ok (((df.addColumn "nuisance_prediction" predictions).addColumn
            "nuisance_probability" (probabilities.map Val.rat)).addColumn
            "risk_level" ((categorize_risk probabilities).map Val.str))

/-- The serialized model artifact: {model, feature_columns, model_type}. -/
structure ModelArtifact where
  model : Option Classifier
  feature_columns : Option (List String)
  model_type : String

/-- NuisancePredictor.save_model: fails on an untrained model, else emits the
three-field artifact. -/
def Predictor.save_model (p : Predictor) : Except String ModelArtifact :=
  if p.is_trained = false then Except.error "Cannot save untrained model"
  else Except.ok ⟨p.model, p.feature_columns, p.model_type⟩

/-- NuisancePredictor.load_model: restore the three fields and set the
trained flag. -/
def Predictor.load_model (p : Predictor) (a : ModelArtifact) : Predictor :=
  { p with model := a.model, feature_columns := a.feature_columns,
           model_type := a.model_type, is_trained := true }

/-! ### Dataset loader (folder_data_loader.py) -/

/-- One dataset descriptor of a city configuration; file_id and category are
looked up with dict.get and so may be missing. -/
structure FileConfig where
  filename : String
  file_id : Option String
  description : String
  category : Option String
deriving DecidableEq, Repr

/-- STRDataLoader state: city name, drive folder id, descriptor registry and
the store of loaded datasets (absent results are stored as none). -/
structure Loader where
  city_name : String
  folder_id : String
  file_configs : List (String × FileConfig)
  datasets : List (String × Option DataFrame)
deriving DecidableEq, Repr

/-- Python truthiness test on an optional file id: None and the empty string
are both falsy. -/
def fileIdFalsy : Option String → Bool
  | none => true
  | some s => s.isEmpty

/-- STRDataLoader.get_direct_download_url. -/
def get_direct_download_url (file_id : String) : String :=
  "https://drive.google.com/uc?id=" ++ file_id ++ "&export=download"

/-- The virus-scan marker test on a response body: the phrase appears in the
lower-cased text (ASCII lowering, which covers the marker phrase). -/
def hasVirusScanMarker (body : String) : Bool :=
  decide ("virus scan".toList <:+: body.toList.map Char.toLower)

/-- The try-block of load_dataset: fetch the direct-download body, retry once
with the confirm flag when the body is implausibly small and carries the
virus-scan marker, then parse the body as CSV. Transport and parsing are
abstract fallible functions. -/
def fetchParseAttempt (http : String → Except String String)
    (parseCsv : String → Except String DataFrame) (file_id : String) :
    Except String DataFrame := do
  let body ← http (get_direct_download_url file_id)
  let body2 ←
    if body.length < 1000 && hasVirusScanMarker body then
      http ("https://drive.google.com/uc?id=" ++ file_id ++
        "&export=download&confirm=t")
    else pure body
  parseCsv body2

/-- STRDataLoader.load_dataset: an unknown key or falsy file id logs and
returns None; the fetch/parse attempt is wrapped in try/except, so any of its
failures also yields None. The Except layer records whether an exception
escapes the call. -/
def load_dataset (http : String → Except String String)
    (parseCsv : String → Except String DataFrame)
    (st : Loader) (key : String) : Except String (Option DataFrame) :=
  match st.file_configs.lookup key with
  | none => Except.ok none
  | some config =>
    if fileIdFalsy config.file_id then Except.ok none
    else
      match fetchParseAttempt http parseCsv (config.file_id.getD "") with
      | Except.ok df => Except.ok (some df)
      | Except.error _ => Except.ok none

/-- STRDataLoader.load_all_datasets: reset the store, then fetch every
configured descriptor in registry order, keeping each result (absent
included) under its key; an exception escaping load_dataset would propagate. -/
def load_all_datasets (http : String → Except String String)
    (parseCsv : String → Except String DataFrame) (st : Loader) :
    Except String Loader := do
  let ds ← st.file_configs.foldlM
    (fun acc kc => do
      let df ← load_dataset http parseCsv st kc.1
      pure (acc ++ [(kc.1, df)]))
    ([] : List (String × Option DataFrame))
  pure { st with datasets := ds }

/-- The counts logged by _print_loading_summary: datasets loaded (non-absent
store entries) over total configured descriptors. -/
def loading_summary_counts (st : Loader) : Nat × Nat :=
  ((st.datasets.filter (fun kd => kd.2.isSome)).length, st.file_configs.length)

/-- Insertion into the nested category mapping, preserving dict insertion
order: a new category is appended at the end, an entry joins the end of its
category's group. -/
def insertGrouped (cats : List (String × List (String × Option DataFrame)))
    (cat : String) (key : String) (df : Option DataFrame) :
    List (String × List (String × Option DataFrame)) :=
  match cats with
  | [] => [(cat, [(key, df)])]
  | (c, l) :: rest =>
    if c = cat then (c, l ++ [(key, df)]) :: rest
    else (c, l) :: insertGrouped rest cat key df

/-- STRDataLoader.get_dataset_by_category: regroup every stored entry whose
key is registered under its descriptor's category (default category "other");
the stored value is kept as is, absent or not. -/
def get_dataset_by_category (st : Loader) :
    List (String × List (String × Option DataFrame)) :=
  st.datasets.foldl
    (fun cats kd =>
      match st.file_configs.lookup kd.1 with
      | none => cats
      | some config => insertGrouped cats (config.category.getD "other") kd.1 kd.2)
    []

/-- Flatten the nested category mapping into (category, key, value) triples. -/
def flattenGroups (gs : List (String × List (String × Option DataFrame))) :
    List (String × String × Option DataFrame) :=
  (gs.map (fun g => g.2.map (fun kd => (g.1, kd.1, kd.2)))).flatten

/-! ### Synthetic fallback data (create_sample_data_for_testing)

numpy's seeded stream (np.random.seed(42)) is abstracted as a function g
from draw position to natural number; each numpy call consumes draws at a
distinct block of positions. Weighted choice (the p= argument of status)
changes only the distribution, never the support, so it is modelled by the
same indexing choice. -/

/-- The street-name pool of the synthetic address generator. -/
def streetPool : List String := ["Main St", "Oak Ave", "Elm Dr"]

/-- np.random.randint(lo, hi): a value in [lo, hi). -/
def npRandint (g : Nat → Nat) (pos lo hi : Nat) : Nat :=
  lo + g pos % (hi - lo)

/-- np.random.choice(l): an element of l selected by the stream. -/
def npChoice (l : List String) (g : Nat → Nat) (pos : Nat) : String :=
  l.getD (g pos % l.length) ""

/-- One synthetic address: random street number, random street, unit #i+1. -/
def sampleAddr (g : Nat → Nat) (i : Nat) : String :=
  toString (npRandint g (2 * i) 1000 9999) ++ " " ++
    npChoice streetPool g (2 * i + 1) ++ " #" ++ toString (i + 1)

/-- The address column of the synthetic properties table, as a string list
(properties['address'].tolist()). -/
def samplePropAddresses (g : Nat → Nat) : List String :=
  (List.range 1000).map (fun i => sampleAddr g i)

/-- The synthetic licensed_strs table: 1000 properties with id, address,
property type and bedroom count. -/
def sampleProperties (g : Nat → Nat) : DataFrame :=
  ⟨["property_id", "address", "property_type", "bedrooms"],
   (List.range 1000).map (fun i =>
     [Val.int (Int.ofNat (i + 1)),
      Val.str (sampleAddr g i),
      Val.str (npChoice ["Single Family", "Condo", "Townhouse"] g (2000 + i)),
      Val.int (Int.ofNat (List.getD [2, 3, 4, 5] (g (3000 + i) % 4) 0))])⟩

/-- The synthetic ez_complaints table: 3000 complaints whose addresses are
chosen from the properties' address list; dates are now minus a random
number of days below 730. -/
def sampleComplaints (g : Nat → Nat) (now : Int) : DataFrame :=
  ⟨["complaint_id", "address", "complaint_date", "complaint_type", "status"],
   (List.range 3000).map (fun j =>
     [Val.int (Int.ofNat (j + 1)),
      Val.str (npChoice (samplePropAddresses g) g (4000 + j)),
      Val.int (now - Int.ofNat (npRandint g (7000 + j) 0 730)),
      Val.str (npChoice ["Noise", "Parking", "Trash", "Party"] g (10000 + j)),
      Val.str (npChoice ["Open", "Closed"] g (13000 + j))])⟩

/-- Store an entry into an association list, overwriting an existing key and
appending a new one (dict assignment). -/
def dictSet (ds : List (String × Option DataFrame)) (k : String)
    (v : Option DataFrame) : List (String × Option DataFrame) :=
  match ds with
  | [] => [(k, v)]
  | (k0, v0) :: rest =>
    if k0 = k then (k0, v) :: rest else (k0, v0) :: dictSet rest k v

/-- STRDataLoader.create_sample_data_for_testing: install the two synthetic
tables into the store. -/
def create_sample_data_for_testing (g : Nat → Nat) (now : Int) (st : Loader) :
    Loader :=
  let ds1 := dictSet st.datasets "licensed_strs" (some (sampleProperties g))
  let ds2 := dictSet ds1 "ez_complaints" (some (sampleComplaints g now))
  { st with datasets := ds2 }

/-! ### File-id extraction (extract_file_id)

The two regular expressions of the source are compiled by hand. For the
path-style pattern, at a given start position the literal part must match
and the greedy one-or-more id-character group must be followed by a slash;
since a slash is not an id character, backtracking inside the maximal run
can never expose one, so the pattern matches at that position exactly when
the maximal run is non-empty and the character after it is a slash.
re.search semantics pick the leftmost matching start position. -/

/-- An [a-zA-Z0-9-_] character. -/
def isIdChar (c : Char) : Bool :=
  c.isAlpha || c.isDigit || c = '-' || c = '_'

/-- Match a literal character sequence at the head, returning the remainder. -/
def stripLit : List Char → List Char → Option (List Char)
  | [], cs => some cs
  | _ :: _, [] => none
  | p :: ps, c :: cs => if c = p then stripLit ps cs else none

/-- Try the path-style pattern at this exact position: literal /file/d/, a
non-empty maximal id-character run, then a slash; yields the captured run. -/
def matchPathStyleAt (cs : List Char) : Option (List Char) :=
  match stripLit "/file/d/".toList cs with
  | none => none
  | some rest =>
    let run := rest.takeWhile isIdChar
    match rest.dropWhile isIdChar with
    | '/' :: _ => if run.isEmpty then none else some run
    | _ => none

/-- re.search of the path-style pattern: leftmost matching position wins. -/
def searchPathStyle : List Char → Option (List Char)
  | [] => none
  | c :: cs =>
    match matchPathStyleAt (c :: cs) with
    | some r => some r
    | none => searchPathStyle cs

/-- Try the query-style pattern at this exact position: literal id=, then a
non-empty maximal id-character run. -/
def matchQueryStyleAt (cs : List Char) : Option (List Char) :=
  match stripLit "id=".toList cs with
  | none => none
  | some rest =>
    let run := rest.takeWhile isIdChar
    if run.isEmpty then none else some run

/-- re.search of the query-style pattern: leftmost matching position wins. -/
def searchQueryStyle : List Char → Option (List Char)
  | [] => none
  | c :: cs =>
    match matchQueryStyleAt (c :: cs) with
    | some r => some r
    | none => searchQueryStyle cs

/-- A character stripped by Python str.strip(): ASCII whitespace. -/
def isPySpace (c : Char) : Bool :=
  c = ' ' || c = '\t' || c = '\n' || c = '\r' ||
    c = Char.ofNat 11 || c = Char.ofNat 12

/-- Python url.strip(): drop leading and trailing whitespace. -/
def pyStrip (s : String) : String :=
  ⟨((s.toList.dropWhile isPySpace).reverse.dropWhile isPySpace).reverse⟩

/-- STRDataLoader.extract_file_id: path-style pattern first, then the
query-style pattern, else the stripped input itself. -/
def extract_file_id (url : String) : String :=
  match searchPathStyle url.toList with
  | some r => ⟨r⟩
  | none =>
    match searchQueryStyle url.toList with
    | some r => ⟨r⟩
    | none => pyStrip url

/-! ### Concrete exemplar inputs -/

/-- A table that only carries the is_nuisance label column. -/
def exDFC2 : DataFrame := ⟨["is_nuisance"], [[Val.int 1]]⟩

/-- A table with no columns at all. -/
def exDFC5 : DataFrame := ⟨[], []⟩

/-- A table whose columns miss every required feature. -/
def exDFC10 : DataFrame := ⟨["address"], [[Val.str "1 Main St"]]⟩

/-- A fixed classifier behaviour: label 0 and probability one half per row. -/
def constClassifier : Classifier :=
  ⟨fun df => df.rows.map (fun _ => Val.int 0),
   fun df => df.rows.map (fun _ => (1 : ℚ) / 2)⟩

/-- A backend whose construction and fit yield the fixed classifier and whose
split returns the whole data twice. -/
def exBackend : MLBackend :=
  ⟨fun _ _ _ => constClassifier, fun c _ _ => c, fun X y => (X, X, y, y)⟩

/-- A predictor in the trained state. -/
def exTrainedPredictor : Predictor :=
  ⟨"random_forest", some constClassifier, some feature_cols, true⟩

/-! ### C1 -/

/-- C1: the risk-bucketing function returns Low below 0.30, Medium on
[0.30, 0.70), and High from 0.70 on, with both boundary values falling in the
higher tier; in particular 0.10 buckets Low, 0.30 and 0.69 Medium, and 0.70
and 0.99 High. -/
theorem categorize_risk_thresholds (p : ℚ) :
    (p < 3/10 → categorize_risk [p] = ["Low"]) ∧
    (3/10 ≤ p → p < 7/10 → categorize_risk [p] = ["Medium"]) ∧
    (7/10 ≤ p → categorize_risk [p] = ["High"]) ∧
    categorize_risk [1/10, 3/10, 69/100, 7/10, 99/100] =
      ["Low", "Medium", "Medium", "High", "High"] := by
  refine ⟨?_, ?_, ?_, by norm_num [categorize_risk]⟩
  · intro h
    simp [categorize_risk, h]
  · intro h1 h2
    simp [categorize_risk, not_lt.mpr h1, h2]
  · intro h
    have h3 : ¬ p < 3/10 := not_lt.mpr (le_trans (by norm_num) h)
    simp [categorize_risk, h3, not_lt.mpr h]

/-- Evaluation of the risk buckets at the three tier representatives. -/
theorem categorize_risk_thresholds_witness :
    categorize_risk [(1 : ℚ)/10] = ["Low"] ∧
    categorize_risk [(3 : ℚ)/10] = ["Medium"] ∧
    categorize_risk [(7 : ℚ)/10] = ["High"] :=
  ⟨(categorize_risk_thresholds (1/10)).1 (by norm_num),
   (categorize_risk_thresholds (3/10)).2.1 (by norm_num) (by norm_num),
   (categorize_risk_thresholds (7/10)).2.2.1 (by norm_num)⟩

/-! ### C2 -/

/-- C2 counterexample: on a table missing every required feature column but
carrying is_nuisance, prepare_features returns an empty X and yet a present
target y, so the absent-y part of the claim fails. -/
theorem prepare_features_label_only_cx :
    feature_cols.all (fun c => exDFC2.cols.contains c) = false ∧
    (prepare_features exDFC2).1.isEmpty = true ∧
    (prepare_features exDFC2).2.isSome = true := by decide

/-- C2 amended: when a required feature column is absent, prepare_features
returns the empty X, while y is the is_nuisance column whenever that column
is present and absent otherwise, independently of the feature columns. -/
theorem prepare_features_missing_feature (df : DataFrame)
    (h : feature_cols.all (fun c => df.cols.contains c) = false) :
    (prepare_features df).1 = DataFrame.emptyDF ∧
    (prepare_features df).2 =
      (if df.cols.contains "is_nuisance" then some (df.column "is_nuisance")
       else none) := by
  have h2 : ¬ (feature_cols.all (fun c => df.cols.contains c) = true) := by
    rw [h]
    exact Bool.false_ne_true
  refine ⟨?_, rfl⟩
  show (if feature_cols.all (fun c => df.cols.contains c) = true
        then df.select feature_cols else DataFrame.emptyDF) = DataFrame.emptyDF
  rw [if_neg h2]

/-- Evaluation of the amended C2 statement on the label-only table. -/
theorem prepare_features_missing_feature_witness :
    (prepare_features exDFC2).1 = DataFrame.emptyDF ∧
    (prepare_features exDFC2).2 =
      (if exDFC2.cols.contains "is_nuisance"
       then some (exDFC2.column "is_nuisance") else none) :=
  prepare_features_missing_feature exDFC2 (by decide)

/-! ### C5 -/

/-- C5: on a freshly constructed predictor, train with an input on which
prepare_features yields an empty X or no target raises the model-readiness
error and leaves the trained flag false. -/
theorem train_unready_fresh (b : MLBackend) (t : String) (df : DataFrame)
    (h : (prepare_features df).1.isEmpty = true ∨
         (prepare_features df).2 = none) :
    Predictor.train b (Predictor.init t) df =
      (Predictor.init t,
       Except.error "No valid features or target found for training") ∧
    (Predictor.train b (Predictor.init t) df).1.is_trained = false := by
  have hc : ((prepare_features df).1.isEmpty ||
      (prepare_features df).2.isNone) = true := by
    rcases h with h | h
    · simp [h]
    · simp [h]
  constructor
  · simp [Predictor.train, hc]
  · simp [Predictor.train, hc, Predictor.init]

/-- Evaluation of C5 on the empty table and a concrete backend. -/
theorem train_unready_fresh_witness :
    (Predictor.train exBackend (Predictor.init "random_forest") exDFC5).1.is_trained
      = false :=
  (train_unready_fresh exBackend "random_forest" exDFC5 (Or.inl (by decide))).2

/-! ### C10 -/

/-- C10: train called on an already-trained predictor with an input on which
prepare_features yields an empty X or no target raises and leaves the
classifier handle, feature_columns, model_type and the trained flag (still
true) unchanged. -/
theorem train_error_preserves_state (b : MLBackend) (p : Predictor)
    (df : DataFrame) (ht : p.is_trained = true)
    (h : (prepare_features df).1.isEmpty = true ∨
         (prepare_features df).2 = none) :
    (Predictor.train b p df).1.model = p.model ∧
    (Predictor.train b p df).1.feature_columns = p.feature_columns ∧
    (Predictor.train b p df).1.model_type = p.model_type ∧
    (Predictor.train b p df).1.is_trained = true ∧
    (Predictor.train b p df).2 =
      Except.error "No valid features or target found for training" := by
  have hc : ((prepare_features df).1.isEmpty ||
      (prepare_features df).2.isNone) = true := by
    rcases h with h | h
    · simp [h]
    · simp [h]
  refine ⟨?_, ?_, ?_, ?_, ?_⟩ <;> simp [Predictor.train, hc, ht]

/-- Evaluation of C10 on a trained predictor and a feature-free table. -/
theorem train_error_preserves_state_witness :
    (Predictor.train exBackend exTrainedPredictor exDFC10).1.is_trained = true ∧
    (Predictor.train exBackend exTrainedPredictor exDFC10).2 =
      Except.error "No valid features or target found for training" :=
  ⟨(train_error_preserves_state exBackend exTrainedPredictor exDFC10 rfl
      (Or.inl (by decide))).2.2.2.1,
   (train_error_preserves_state exBackend exTrainedPredictor exDFC10 rfl
      (Or.inl (by decide))).2.2.2.2⟩

/-! ### C6 -/

/-- C6: saving a trained predictor and loading the artifact into a freshly
constructed predictor reproduces exactly the original predict output on any
table the original predict accepts. -/
theorem save_load_round_trip (p : Predictor) (df res : DataFrame)
    (a : ModelArtifact) (ht : p.is_trained = true)
    (hs : p.save_model = Except.ok a)
    (hp : p.predict df = Except.ok res) :
    (Predictor.load_model (Predictor.init "random_forest") a).predict df =
      Except.ok res := by
  unfold Predictor.save_model at hs
  rw [ht] at hs
  simp only [Bool.true_eq_false, if_false] at hs
  have ha : (⟨p.model, p.feature_columns, p.model_type⟩ : ModelArtifact) = a :=
    Except.ok.inj hs
  have hm : (Predictor.load_model (Predictor.init "random_forest") a).model =
      p.model := by
    rw [← ha]
    rfl
  have hq : (Predictor.load_model (Predictor.init "random_forest") a).is_trained
      = true := rfl
  unfold Predictor.predict at hp ⊢
  rw [ht] at hp
  rw [hq, hm]
  exact hp

/-- A table carrying exactly the three required feature columns. -/
def exDFC6 : DataFrame :=
  ⟨feature_cols, [[Val.int 4, Val.int 20, Val.rat (9/10)]]⟩

/-- The artifact written by saving the trained exemplar predictor. -/
def exArtifact : ModelArtifact :=
  ⟨some constClassifier, some feature_cols, "random_forest"⟩

/-- The predict output of the trained exemplar predictor on the exemplar
table. -/
def exPredOut : DataFrame :=
  ⟨["complaint_count_last_year", "property_age", "neighborhood_risk_score",
    "nuisance_prediction", "nuisance_probability", "risk_level"],
   [[Val.int 4, Val.int 20, Val.rat (9/10), Val.int 0, Val.rat (1/2),
     Val.str "Medium"]]⟩

/-- Evaluation of the C6 round trip at the concrete exemplar predictor. -/
theorem save_load_round_trip_witness :
    (Predictor.load_model (Predictor.init "random_forest") exArtifact).predict
      exDFC6 = Except.ok exPredOut :=
  save_load_round_trip exTrainedPredictor exDFC6 exPredOut exArtifact rfl rfl
    (by norm_num [Predictor.predict, exTrainedPredictor, exDFC6, exPredOut,
      prepare_features, feature_cols, DataFrame.select, DataFrame.isEmpty,
      DataFrame.cell, DataFrame.addColumn, constClassifier, categorize_risk])

/-! ### C4 -/

/-- load_dataset always returns normally (shared helper). -/
theorem load_dataset_ok_opt (http : String → Except String String)
    (parseCsv : String → Except String DataFrame) (st : Loader) (key : String) :
    ∃ r, load_dataset http parseCsv st key = Except.ok r := by
  unfold load_dataset
  split
  · exact ⟨none, rfl⟩
  · split
    · exact ⟨none, rfl⟩
    · split
      · rename_i df _
        exact ⟨some df, rfl⟩
      · exact ⟨none, rfl⟩

/-- C4: load_dataset never raises; an unregistered key or a falsy remote id
yields the absence marker, and so does any failure of the fetch/parse
attempt (which already contains the single virus-scan retry). -/
theorem load_dataset_fails_soft (http : String → Except String String)
    (parseCsv : String → Except String DataFrame) (st : Loader) (key : String) :
    (∃ r, load_dataset http parseCsv st key = Except.ok r) ∧
    (st.file_configs.lookup key = none →
      load_dataset http parseCsv st key = Except.ok none) ∧
    (∀ c, st.file_configs.lookup key = some c → fileIdFalsy c.file_id = true →
      load_dataset http parseCsv st key = Except.ok none) ∧
    (∀ c e, st.file_configs.lookup key = some c →
      fileIdFalsy c.file_id = false →
      fetchParseAttempt http parseCsv (c.file_id.getD "") = Except.error e →
      load_dataset http parseCsv st key = Except.ok none) := by
  refine ⟨load_dataset_ok_opt http parseCsv st key, ?_, ?_, ?_⟩
  · intro h
    unfold load_dataset
    rw [h]
  · intro c hc hf
    unfold load_dataset
    rw [hc]
    simp [hf]
  · intro c e hc hf ha
    unfold load_dataset
    rw [hc]
    simp [hf, ha]

/-- Transport that always times out. -/
def exHttpFail : String → Except String String := fun _ => Except.error "timeout"

/-- Parsing that always fails. -/
def exParseFail : String → Except String DataFrame :=
  fun _ => Except.error "parse error"

/-- A loader with one unconfigured and one configured descriptor. -/
def exLoaderC4 : Loader :=
  ⟨"Scottsdale", "folder",
   [("licensed_strs", ⟨"a.csv", none, "Licensed STRs", some "properties"⟩),
    ("ez_complaints", ⟨"b.csv", some "FID", "Complaints", some "complaints"⟩)],
   []⟩

/-- Evaluation of the C4 soft-failure cases: unknown key, unset id, and a
transport failure all yield the absence marker. -/
theorem load_dataset_fails_soft_witness :
    load_dataset exHttpFail exParseFail exLoaderC4 "zzz" = Except.ok none ∧
    load_dataset exHttpFail exParseFail exLoaderC4 "licensed_strs" =
      Except.ok none ∧
    load_dataset exHttpFail exParseFail exLoaderC4 "ez_complaints" =
      Except.ok none :=
  ⟨(load_dataset_fails_soft exHttpFail exParseFail exLoaderC4 "zzz").2.1
      (by decide),
   (load_dataset_fails_soft exHttpFail exParseFail exLoaderC4
      "licensed_strs").2.2.1 ⟨"a.csv", none, "Licensed STRs", some "properties"⟩
      (by decide) (by decide),
   (load_dataset_fails_soft exHttpFail exParseFail exLoaderC4
      "ez_complaints").2.2.2 ⟨"b.csv", some "FID", "Complaints",
        some "complaints"⟩ "timeout" (by decide) (by decide) rfl⟩

/-! ### C7 -/

/-- The fold of load_all_datasets appends, per configured descriptor in
order, its key paired with the soft result of load_dataset (helper). -/
theorem load_all_datasets_fold (http : String → Except String String)
    (parseCsv : String → Except String DataFrame) (st : Loader) :
    ∀ (l : List (String × FileConfig)) (acc : List (String × Option DataFrame)),
    l.foldlM (fun acc kc => do
        let df ← load_dataset http parseCsv st kc.1
        pure (acc ++ [(kc.1, df)])) acc =
      Except.ok (acc ++ l.map (fun kc =>
        (kc.1, (load_dataset http parseCsv st kc.1).toOption.join))) := by
  intro l
  induction l with
  | nil =>
    intro acc
    simp only [List.foldlM_nil, List.map_nil, List.append_nil]
    rfl
  | cons kc rest ih =>
    intro acc
    obtain ⟨r, hr⟩ := load_dataset_ok_opt http parseCsv st kc.1
    rw [List.foldlM_cons]
    rw [hr]
    show rest.foldlM _ (acc ++ [(kc.1, r)]) = _
    rw [ih (acc ++ [(kc.1, r)])]
    simp [hr, Except.toOption, Option.join]

/-- A small table produced by the exemplar parser. -/
def exTableC7 : DataFrame := ⟨["a"], [[Val.int 1]]⟩

/-- Transport that always succeeds with a short plain body. -/
def exHttpC7 : String → Except String String := fun _ => Except.ok "a,1"

/-- Parsing that always yields the exemplar table. -/
def exParseC7 : String → Except String DataFrame := fun _ => Except.ok exTableC7

/-- A city configuration with three descriptors, two configured with remote
ids and one without. -/
def exLoaderC7 : Loader :=
  ⟨"Scottsdale", "folder",
   [("licensed_strs", ⟨"a.csv", some "F1", "Licensed STRs", some "properties"⟩),
    ("ez_complaints", ⟨"b.csv", some "F2", "Complaints", some "complaints"⟩),
    ("parcels", ⟨"c.csv", none, "Parcels", some "geographic"⟩)],
   []⟩

/-- The store state after loading the three-descriptor configuration. -/
def exLoadedC7 : Loader :=
  ⟨"Scottsdale", "folder",
   [("licensed_strs", ⟨"a.csv", some "F1", "Licensed STRs", some "properties"⟩),
    ("ez_complaints", ⟨"b.csv", some "F2", "Complaints", some "complaints"⟩),
    ("parcels", ⟨"c.csv", none, "Parcels", some "geographic"⟩)],
   [("licensed_strs", some exTableC7), ("ez_complaints", some exTableC7),
    ("parcels", none)]⟩

/-- C7: load_all_datasets returns normally with a store listing exactly the
configured descriptor keys in order, each mapped to its load_dataset result
(failures and unconfigured descriptors kept as the absence marker), and the
summary counts the non-absent entries over the total descriptor count; in
particular three descriptors of which one lacks a remote id give a size-3
store with exactly one absent value and a 2-of-3 summary. -/
theorem load_all_datasets_complete (http : String → Except String String)
    (parseCsv : String → Except String DataFrame) (st : Loader) :
    load_all_datasets http parseCsv st = Except.ok
      { st with datasets := st.file_configs.map (fun kc =>
          (kc.1, (load_dataset http parseCsv st kc.1).toOption.join)) } ∧
    (st.file_configs.map (fun kc =>
        (kc.1, (load_dataset http parseCsv st kc.1).toOption.join))).map
        Prod.fst = st.file_configs.map Prod.fst ∧
    loading_summary_counts
      { st with datasets := st.file_configs.map (fun kc =>
          (kc.1, (load_dataset http parseCsv st kc.1).toOption.join)) } =
      (((st.file_configs.map (fun kc =>
          (kc.1, (load_dataset http parseCsv st kc.1).toOption.join))).filter
            (fun kd => kd.2.isSome)).length,
       st.file_configs.length) ∧
    load_all_datasets exHttpC7 exParseC7 exLoaderC7 = Except.ok exLoadedC7 ∧
    exLoadedC7.datasets.length = 3 ∧
    (exLoadedC7.datasets.filter (fun kd => kd.2.isNone)).length = 1 ∧
    loading_summary_counts exLoadedC7 = (2, 3) := by
  refine ⟨?_, by simp, rfl, by rfl, by decide, by decide, by decide⟩
  unfold load_all_datasets
  rw [load_all_datasets_fold http parseCsv st st.file_configs []]
  simp

/-! ### C3 -/

/-- A loader whose store holds one absent entry under a registered key. -/
def exLoaderC3 : Loader :=
  ⟨"Scottsdale", "folder",
   [("licensed_strs", ⟨"a.csv", none, "Licensed STRs", some "properties"⟩)],
   [("licensed_strs", none)]⟩

/-- C3 counterexample: get_dataset_by_category keeps a stored absence marker
inside its category group instead of skipping it. -/
theorem get_dataset_by_category_keeps_absent :
    get_dataset_by_category exLoaderC3 =
      [("properties", [("licensed_strs", none)])] ∧
    ("properties", "licensed_strs", (none : Option DataFrame)) ∈
      flattenGroups (get_dataset_by_category exLoaderC3) := by
  constructor
  · rfl
  · decide

/-- Inserting into the nested category mapping adds exactly one flattened
triple (helper). -/
theorem flattenGroups_insertGrouped
    (cats : List (String × List (String × Option DataFrame)))
    (cat key : String) (df : Option DataFrame) :
    (flattenGroups (insertGrouped cats cat key df)).Perm
      (flattenGroups cats ++ [(cat, key, df)]) := by
  induction cats with
  | nil => simp [insertGrouped, flattenGroups]
  | cons g rest ih =>
    obtain ⟨c, l⟩ := g
    by_cases hc : c = cat
    · subst hc
      have e1 : insertGrouped ((c, l) :: rest) c key df =
          (c, l ++ [(key, df)]) :: rest := by
        simp [insertGrouped]
      rw [e1]
      simp only [flattenGroups, List.map_cons, List.flatten_cons,
        List.map_append, List.map_nil]
      rw [List.append_assoc, List.append_assoc]
      exact List.Perm.append_left _ List.perm_append_comm
    · have e1 : insertGrouped ((c, l) :: rest) cat key df =
          (c, l) :: insertGrouped rest cat key df := by
        simp [insertGrouped, hc]
      rw [e1]
      simp only [flattenGroups, List.map_cons, List.flatten_cons]
      rw [List.append_assoc]
      exact List.Perm.append_left _ ih

/-- The fold of get_dataset_by_category flattens to the accumulated groups
followed by the registered store entries tagged with their category
(helper). -/
theorem get_dataset_by_category_fold (st : Loader) :
    ∀ (ds : List (String × Option DataFrame))
      (cats : List (String × List (String × Option DataFrame))),
    (flattenGroups (ds.foldl (fun cats kd =>
        match st.file_configs.lookup kd.1 with
        | none => cats
        | some config =>
          insertGrouped cats (config.category.getD "other") kd.1 kd.2)
      cats)).Perm
      (flattenGroups cats ++ ds.filterMap (fun kd =>
        (st.file_configs.lookup kd.1).map
          (fun config => (config.category.getD "other", kd.1, kd.2)))) := by
  intro ds
  induction ds with
  | nil =>
    intro cats
    simp
  | cons kd rest ih =>
    intro cats
    rw [List.foldl_cons, List.filterMap_cons]
    cases h : st.file_configs.lookup kd.1 with
    | none =>
      simpa using ih cats
    | some config =>
      refine (ih (insertGrouped cats (config.category.getD "other")
        kd.1 kd.2)).trans ?_
      refine (List.Perm.append_right _
        (flattenGroups_insertGrouped cats (config.category.getD "other")
          kd.1 kd.2)).trans ?_
      rw [List.append_assoc]
      exact List.Perm.refl _

/-- C3 amended: the nested category mapping contains, as a multiset, exactly
one (category, key, value) triple per stored entry whose key is registered,
the category coming from the descriptor (default "other") — absent stored
values included, unregistered keys skipped. -/
theorem get_dataset_by_category_groups (st : Loader) :
    (flattenGroups (get_dataset_by_category st)).Perm
      (st.datasets.filterMap (fun kd =>
        (st.file_configs.lookup kd.1).map
          (fun config => (config.category.getD "other", kd.1, kd.2)))) := by
  have h := get_dataset_by_category_fold st st.datasets []
  simpa [get_dataset_by_category, flattenGroups] using h

/-! ### C8 -/

/-- The address column of the synthetic complaints table (helper). -/
theorem sampleComplaints_address_col (g : Nat → Nat) (now : Int) :
    (sampleComplaints g now).column "address" =
      (List.range 3000).map (fun j =>
        Val.str (npChoice (samplePropAddresses g) g (4000 + j))) := by
  unfold DataFrame.column sampleComplaints
  rw [List.map_map]
  exact List.map_congr_left fun j _ => rfl

/-- The address column of the synthetic properties table (helper). -/
theorem sampleProperties_address_col (g : Nat → Nat) :
    (sampleProperties g).column "address" =
      (List.range 1000).map (fun i => Val.str (sampleAddr g i)) := by
  unfold DataFrame.column sampleProperties
  rw [List.map_map]
  exact List.map_congr_left fun i _ => rfl

/-- C8: whatever the random stream, the synthetic fallback produces a
non-empty properties table, and every address of the synthetic complaints
table occurs in the properties table's address column. -/
theorem sample_data_addresses_subset (g : Nat → Nat) (now : Int) :
    (sampleProperties g).rows.isEmpty = false ∧
    ((sampleComplaints g now).column "address").all
      (fun v => ((sampleProperties g).column "address").contains v) = true := by
  constructor
  · have hlen : (sampleProperties g).rows.length = 1000 := by
      simp [sampleProperties]
    cases hr : (sampleProperties g).rows with
    | nil => rw [hr] at hlen; simp at hlen
    | cons a l => rfl
  · rw [List.all_eq_true]
    intro v hv
    rw [sampleComplaints_address_col] at hv
    obtain ⟨j, hj, rfl⟩ := List.mem_map.mp hv
    rw [sampleProperties_address_col]
    have hlen : (samplePropAddresses g).length = 1000 := by
      simp [samplePropAddresses]
    have h1 : npChoice (samplePropAddresses g) g (4000 + j) =
        sampleAddr g (g (4000 + j) % 1000) := by
      unfold npChoice
      rw [hlen]
      rw [List.getD_eq_getElem _ _ (by rw [hlen]; exact Nat.mod_lt _ (by norm_num))]
      simp [samplePropAddresses]
    rw [h1]
    apply List.elem_eq_true_of_mem
    apply List.mem_map.mpr
    exact ⟨g (4000 + j) % 1000,
      List.mem_range.mpr (Nat.mod_lt _ (by norm_num)), rfl⟩

/-! ### C9 -/

/-- C9 counterexample: on an input with leading whitespace the fallback
returns the stripped token, not the whole string. -/
theorem extract_file_id_strips_cx :
    extract_file_id " QQQ111" = "QQQ111" ∧
    (" QQQ111" == "QQQ111") = false := by decide

/-- C9 amended: extract_file_id tries the path-style pattern first, then the
query-style pattern, and otherwise returns the whitespace-stripped input;
the first matching pattern wins, and the three exemplar inputs extract as
the spec lists. -/
theorem extract_file_id_order (url : String) :
    (∀ r, searchPathStyle url.toList = some r → extract_file_id url = ⟨r⟩) ∧
    (searchPathStyle url.toList = none →
      ∀ r, searchQueryStyle url.toList = some r → extract_file_id url = ⟨r⟩) ∧
    (searchPathStyle url.toList = none → searchQueryStyle url.toList = none →
      extract_file_id url = pyStrip url) ∧
    extract_file_id "https://drive.google.com/file/d/ABC123/view" = "ABC123" ∧
    extract_file_id "https://drive.google.com/uc?id=XYZ&export=download" =
      "XYZ" ∧
    extract_file_id "QQQ111" = "QQQ111" := by
  refine ⟨?_, ?_, ?_, by decide, by decide, by decide⟩
  · intro r h
    unfold extract_file_id
    rw [h]
  · intro h1 r h2
    unfold extract_file_id
    rw [h1, h2]
  · intro h1 h2
    unfold extract_file_id
    rw [h1, h2]

/-- Evaluation of the C9 pattern order at concrete inputs: a path-style
match wins, and with no pattern match the stripped input is returned. -/
theorem extract_file_id_order_witness :
    extract_file_id "/file/d/AA1/end" = ⟨"AA1".toList⟩ ∧
    extract_file_id "token-1" = pyStrip "token-1" :=
  ⟨(extract_file_id_order "/file/d/AA1/end").1 "AA1".toList (by decide),
   (extract_file_id_order "token-1").2.2.1 (by decide) (by decide)⟩
